import Mathlib

/-!
# Verification of `graphima` — `src/docs/main/example-log.js` and the Scale contract

This development embeds the example script `src/docs/main/example-log.js`
shallowly in Lean.  JavaScript arrays are modelled as references into an
explicit heap (a list of rational-number arrays), so that freshness of the
arrays produced by `slice` and `map`, and non-mutation of the fetched data,
are expressible.  Numeric values are rationals (exact arithmetic).

The charting engine itself (`Graphima.createMain` and its Scale component)
has no implementation in the repository; the Scale operations are modelled
from the specification text and marked as such.
-/

namespace Graphima

/-- A JavaScript array of numbers, modelled as a list of rationals. -/
abbrev JsArray := List ℚ

/-- The heap of allocated arrays; a reference is an index into this list. -/
abbrev Heap := List JsArray

/-- Read the array behind reference `r` (a dangling reference reads `[]`). -/
def Heap.get (h : Heap) (r : Nat) : JsArray := h.getD r []

/-- Allocate a fresh array on the heap, returning the new heap and the
fresh reference. -/
def Heap.alloc (h : Heap) (a : JsArray) : Heap × Nat :=
  (h ++ [a], h.length)

/-- `xs.slice(1)`: reads the array behind `r` and allocates a fresh array
holding all of its elements but the first. -/
def slice1 (h : Heap) (r : Nat) : Heap × Nat :=
  h.alloc ((h.get r).drop 1)

/-- `xs.map((v) => v * k)`: reads the array behind `r` and allocates a fresh
array with every element multiplied by `k`. -/
def mapMul (h : Heap) (r : Nat) (k : ℚ) : Heap × Nat :=
  h.alloc ((h.get r).map (fun v => v * k))

/-- `data.names` as the example uses it: the display names `y0` and `y1`. -/
structure Names where
  y0 : String
  y1 : String
deriving DecidableEq, Repr

/-- The decoded JSON object: display names and the ordered columns, each
column being a reference to a heap-allocated array. -/
structure Data where
  names : Names
  columns : List Nat
deriving DecidableEq, Repr

/-- One entry of `dataSets` as built by the example: a display name and
references to the coordinate and value arrays. -/
structure SeriesSpecH where
  name : String
  coords : Nat
  values : Nat
deriving DecidableEq, Repr

/-- The `params` object handed to `Graphima.createMain`, with the series
arrays still as heap references. -/
structure ChartSpecH where
  selector : String
  contentName : String
  coordType : String
  valueType : String
  dataSets : List SeriesSpecH
deriving DecidableEq, Repr

/-- A series with its arrays dereferenced to plain value lists. -/
structure SeriesSpec where
  name : String
  coords : JsArray
  values : JsArray
deriving DecidableEq, Repr

/-- A chart description with all series arrays dereferenced. -/
structure ChartSpec where
  selector : String
  contentName : String
  coordType : String
  valueType : String
  dataSets : List SeriesSpec
deriving DecidableEq, Repr

/-- Dereference one series against a heap. -/
def Heap.derefSeries (h : Heap) (s : SeriesSpecH) : SeriesSpec :=
  ⟨s.name, h.get s.coords, h.get s.values⟩

/-- Dereference every series of a chart description against a heap. -/
def Heap.derefChart (h : Heap) (c : ChartSpecH) : ChartSpec :=
  ⟨c.selector, c.contentName, c.coordType, c.valueType,
    c.dataSets.map h.derefSeries⟩

/-- The construction of `params` in `run` (example-log.js lines 5–25),
with every `slice(1)` and `map` call allocating in source order. -/
def buildParams (h : Heap) (d : Data) : Heap × ChartSpecH :=
  let r0 := d.columns.getD 0 0
  let r1 := d.columns.getD 1 0
  let r2 := d.columns.getD 2 0
  let (h, c0a) := slice1 h r0
  let (h, v0) := slice1 h r1
  let (h, c0b) := slice1 h r0
  let (h, t1) := slice1 h r2
  let (h, v1) := mapMul h t1 100
  let (h, c0c) := slice1 h r0
  let (h, t2) := slice1 h r2
  let (h, v2) := mapMul h t2 1000
  (h,
    { selector := "#chart-2"
      contentName := "New chart"
      coordType := "date"
      valueType := "number"
      dataSets :=
        [ ⟨d.names.y0, c0a, v0⟩,
          ⟨d.names.y1 ++ " x 100", c0b, v1⟩,
          ⟨d.names.y1 ++ " x 1000", c0c, v2⟩ ] })

/-- A recorded invocation of `Graphima.createMain`. -/
structure CreateMainCall (Config : Type) where
  params : ChartSpecH
  config : Config
deriving DecidableEq, Repr

/-- The body of `run` after the data has been fetched and decoded: it
builds `params` and calls `Graphima.createMain(params, CONFIG)` once.
Returns the final heap and the list of `createMain` invocations made. -/
def run (Config : Type) (h : Heap) (d : Data) (cfg : Config) :
    Heap × List (CreateMainCall Config) :=
  let (h, params) := buildParams h d
  (h, [⟨params, cfg⟩])

/-- Modelled from the spec: the Scale component (§4.1) is described in the
specification but has no source in the repository.  A Scale holds the
widened domain bounds and the pixel range. -/
structure Scale where
  domainMin : ℚ
  domainMax : ℚ
  rangeMin : ℚ
  rangeMax : ℚ
deriving DecidableEq, Repr

/-- Modelled from the spec: the degenerate-domain policy of §4.1 — if
`domainMin == domainMax`, expand symmetrically by 1% of magnitude, or by an
absolute epsilon of 1 for numbers at zero. -/
def widen (lo hi : ℚ) : ℚ × ℚ :=
  if lo = hi then
    let eps := if lo = 0 then 1 else |lo| / 100
    (lo - eps, lo + eps)
  else (lo, hi)

/-- Modelled from the spec: `Scale.build` (§4.1) — domain bounds are the
true min/max across all input values, widened when degenerate; building
with zero input values fails with `EmptyDomain` (here: `none`). -/
def Scale.build (vals : List ℚ) (rangeMin rangeMax : ℚ) : Option Scale :=
  match vals with
  | [] => none
  | v :: vs =>
    let lo := vs.foldl min v
    let hi := vs.foldl max v
    let p := widen lo hi
    some ⟨p.1, p.2, rangeMin, rangeMax⟩

/-- Modelled from the spec: `toPixel(v)` is the linear interpolation from
the domain interval to the pixel range (§4.1). -/
def Scale.toPixel (s : Scale) (v : ℚ) : ℚ :=
  s.rangeMin + (v - s.domainMin) * (s.rangeMax - s.rangeMin) / (s.domainMax - s.domainMin)

/-- Modelled from the spec: `toDomain(p)` is the inverse linear
interpolation from the pixel range back to the domain interval (§4.1). -/
def Scale.toDomain (s : Scale) (p : ℚ) : ℚ :=
  s.domainMin + (p - s.rangeMin) * (s.domainMax - s.domainMin) / (s.rangeMax - s.rangeMin)

/-- An array `a` was obtained from one of the given columns with its first
(header) element removed via `slice(1)`, possibly followed by an
element-wise scaling `map`. -/
def headerStripped (cols : List JsArray) (a : JsArray) : Prop :=
  ∃ c ∈ cols, a = c.drop 1 ∨ ∃ k : ℚ, a = (c.drop 1).map (fun v => v * k)

/-! ## Helper lemmas about the heap and the example's construction -/

theorem Heap.get_append_lt (h : Heap) (l : List JsArray) (r : Nat) (hr : r < h.length) :
    Heap.get (h ++ l) r = h.get r := by
  unfold Heap.get
  rw [List.getD_append _ _ _ _ hr]

theorem Heap.get_append_add (h : Heap) (l : List JsArray) (k : Nat) :
    Heap.get (h ++ l) (h.length + k) = l.getD k [] := by
  unfold Heap.get
  rw [List.getD_append_right _ _ _ _ (Nat.le_add_right _ _), Nat.add_sub_cancel_left]

theorem Heap.get_append_zero (h : Heap) (l : List JsArray) :
    Heap.get (h ++ l) h.length = l.getD 0 [] := by
  have := Heap.get_append_add h l 0
  simpa using this

/-- `run` returns the heap produced by `buildParams` and the single
`createMain` invocation. -/
theorem run_eq (Config : Type) (h : Heap) (d : Data) (cfg : Config) :
    run Config h d cfg = ((buildParams h d).1, [⟨(buildParams h d).2, cfg⟩]) := rfl

/-- Closed form of `buildParams`: with valid column references, the final
heap appends exactly the eight freshly allocated arrays in source order,
and the chart description holds the references of the fresh arrays. -/
theorem buildParams_eq (h : Heap) (names : Names) (r0 r1 r2 : Nat) (rest : List Nat)
    (h0 : r0 < h.length) (h1 : r1 < h.length) (h2 : r2 < h.length) :
    buildParams h ⟨names, r0 :: r1 :: r2 :: rest⟩ =
      (h ++ [(h.get r0).drop 1, (h.get r1).drop 1, (h.get r0).drop 1,
             (h.get r2).drop 1, ((h.get r2).drop 1).map (fun v => v * 100),
             (h.get r0).drop 1, (h.get r2).drop 1,
             ((h.get r2).drop 1).map (fun v => v * 1000)],
       { selector := "#chart-2", contentName := "New chart",
         coordType := "date", valueType := "number",
         dataSets :=
          [ ⟨names.y0, h.length, h.length + 1⟩,
            ⟨names.y1 ++ " x 100", h.length + 2, h.length + 4⟩,
            ⟨names.y1 ++ " x 1000", h.length + 5, h.length + 7⟩ ] }) := by
  simp only [buildParams, slice1, mapMul, Heap.alloc, List.getD_cons_zero, List.getD_cons_succ,
    List.append_assoc, List.cons_append, List.nil_append, List.length_append, List.length_cons,
    List.length_nil]
  simp [Heap.get_append_lt, h0, h1, h2, Heap.get_append_add]

/-- `buildParams` only allocates: the final heap extends the initial one. -/
theorem buildParams_heap_extends (h : Heap) (d : Data) :
    ∃ l : List JsArray, (buildParams h d).1 = h ++ l := by
  simp only [buildParams, slice1, mapMul, Heap.alloc, List.append_assoc]
  exact ⟨_, rfl⟩

/-! ## Helper lemmas about the Scale model -/

theorem foldl_min_le_init (v : ℚ) (vs : List ℚ) : vs.foldl min v ≤ v := by
  induction vs generalizing v with
  | nil => exact le_refl v
  | cons a t ih =>
    simp only [List.foldl_cons]
    exact le_trans (ih (min v a)) (min_le_left v a)

theorem le_foldl_max_init (v : ℚ) (vs : List ℚ) : v ≤ vs.foldl max v := by
  induction vs generalizing v with
  | nil => exact le_refl v
  | cons a t ih =>
    simp only [List.foldl_cons]
    exact le_trans (le_max_left v a) (ih (max v a))

theorem foldl_min_all_eq (v : ℚ) (vs : List ℚ) (hall : ∀ x ∈ vs, x = v) :
    vs.foldl min v = v := by
  induction vs with
  | nil => rfl
  | cons a t ih =>
    have ha : a = v := hall a (by simp)
    simp only [List.foldl_cons, ha, min_self]
    exact ih (fun x hx => hall x (by simp [hx]))

theorem foldl_max_all_eq (v : ℚ) (vs : List ℚ) (hall : ∀ x ∈ vs, x = v) :
    vs.foldl max v = v := by
  induction vs with
  | nil => rfl
  | cons a t ih =>
    have ha : a = v := hall a (by simp)
    simp only [List.foldl_cons, ha, max_self]
    exact ih (fun x hx => hall x (by simp [hx]))

theorem widen_lt (lo hi : ℚ) (hle : lo ≤ hi) : (widen lo hi).1 < (widen lo hi).2 := by
  by_cases h : lo = hi
  · subst h
    by_cases hz : lo = 0
    · simp [widen, hz]
    · have hpos : 0 < |lo| / 100 := by positivity
      simp only [widen, if_pos rfl, if_neg hz, if_true]
      linarith
  · unfold widen
    simp only [if_neg h]
    exact lt_of_le_of_ne hle h

/-- Inversion for `Scale.build`: a successfully built scale has a
strictly widened domain and carries the requested pixel range. -/
theorem build_some (vals : List ℚ) (rmin rmax : ℚ) (s : Scale)
    (hb : Scale.build vals rmin rmax = some s) :
    s.domainMin < s.domainMax ∧ s.rangeMin = rmin ∧ s.rangeMax = rmax := by
  match vals with
  | [] => simp [Scale.build] at hb
  | v :: vs =>
    simp only [Scale.build, Option.some.injEq] at hb
    have hle : vs.foldl min v ≤ vs.foldl max v :=
      le_trans (foldl_min_le_init v vs) (le_foldl_max_init v vs)
    have hlt := widen_lt (vs.foldl min v) (vs.foldl max v) hle
    subst hb
    exact ⟨hlt, rfl, rfl⟩

/-- The linear round trip: with a non-degenerate domain and pixel range,
`toDomain` inverts `toPixel` exactly. -/
theorem round_trip_core (s : Scale) (hd : s.domainMin ≠ s.domainMax)
    (hr : s.rangeMin ≠ s.rangeMax) (v : ℚ) : s.toDomain (s.toPixel v) = v := by
  unfold Scale.toPixel Scale.toDomain
  have hd' : s.domainMax - s.domainMin ≠ 0 := sub_ne_zero.mpr (Ne.symm hd)
  have hr' : s.rangeMax - s.rangeMin ≠ 0 := sub_ne_zero.mpr (Ne.symm hr)
  field_simp
  ring

/-! ## Claims -/

/-- C8: the ChartSpec the example constructs — the one in the single
`createMain` invocation — has `coordType` equal to the literal `"date"`,
a member of the allowed set {date, number, category}, and `valueType`
equal to the literal `"number"`, a member of the allowed set {number}. -/
theorem C8_coord_and_value_types (Config : Type) (h : Heap) (d : Data) (cfg : Config) :
    (run Config h d cfg).2 = [⟨(buildParams h d).2, cfg⟩] ∧
    (buildParams h d).2.coordType = "date" ∧
    (buildParams h d).2.coordType ∈ (["date", "number", "category"] : List String) ∧
    (buildParams h d).2.valueType = "number" ∧
    (buildParams h d).2.valueType ∈ (["number"] : List String) := by
  refine ⟨rfl, ?_, ?_, ?_, ?_⟩ <;> simp [buildParams]

/-- C5: constructing the chart description does not mutate the decoded
data object: the example only allocates fresh arrays via `slice` and
`map`, so every array that existed before `run` — in particular every
column of `data` — is unchanged in the final heap (and `data.names`,
an immutable value in this model, is untouched). -/
theorem C5_no_mutation (Config : Type) (h : Heap) (d : Data) (cfg : Config)
    (r : Nat) (hr : r < h.length) :
    ((run Config h d cfg).1).get r = h.get r := by
  obtain ⟨l, hl⟩ := buildParams_heap_extends h d
  rw [run_eq]
  simp only [hl]
  exact Heap.get_append_lt h l r hr

theorem C5_no_mutation_witness :
    ((run Unit [[(1 : ℚ), 2]] ⟨⟨"a", "b"⟩, [0]⟩ ()).1).get 0 =
      Heap.get [[(1 : ℚ), 2]] 0 :=
  C5_no_mutation Unit [[(1 : ℚ), 2]] ⟨⟨"a", "b"⟩, [0]⟩ () 0 (by decide)

/-- C6: building a Scale from a degenerate domain (all input values
equal) does not fail and produces `domainMin` strictly less than
`domainMax`, the domain being expanded symmetrically around the common
value. -/
theorem C6_degenerate_domain (v : ℚ) (vs : List ℚ) (rmin rmax : ℚ)
    (hall : ∀ x ∈ vs, x = v) :
    ∃ s : Scale, Scale.build (v :: vs) rmin rmax = some s ∧
      s.domainMin < s.domainMax ∧ s.domainMax - v = v - s.domainMin := by
  have hmin : vs.foldl min v = v := foldl_min_all_eq v vs hall
  have hmax : vs.foldl max v = v := foldl_max_all_eq v vs hall
  have hle : vs.foldl min v ≤ vs.foldl max v :=
    le_trans (foldl_min_le_init v vs) (le_foldl_max_init v vs)
  refine ⟨_, rfl, widen_lt _ _ hle, ?_⟩
  rw [hmin, hmax]
  simp [widen]

theorem C6_degenerate_domain_witness :
    ∃ s : Scale, Scale.build [(5 : ℚ), 5, 5] 0 10 = some s ∧
      s.domainMin < s.domainMax ∧ s.domainMax - 5 = 5 - s.domainMin :=
  C6_degenerate_domain 5 [5, 5] 0 10 (by decide)

/-- C7: for every Scale built from a non-degenerate domain (with a
non-degenerate pixel range, as needed for the inverse mapping of §3 to
exist) and every domain value `v`, `toDomain (toPixel v) = v` — exact in
the rational model, hence within floating-point tolerance. -/
theorem C7_round_trip (vals : List ℚ) (rmin rmax : ℚ) (s : Scale)
    (_hnd : ∃ a ∈ vals, ∃ b ∈ vals, a ≠ b)
    (hb : Scale.build vals rmin rmax = some s)
    (hr : rmin ≠ rmax) (v : ℚ) :
    s.toDomain (s.toPixel v) = v := by
  obtain ⟨hdlt, hrmin, hrmax⟩ := build_some vals rmin rmax s hb
  refine round_trip_core s (ne_of_lt hdlt) ?_ v
  rw [hrmin, hrmax]
  exact hr

theorem C7_round_trip_witness :
    Scale.toDomain ⟨0, 10, 0, 100⟩ (Scale.toPixel ⟨0, 10, 0, 100⟩ 3) = 3 :=
  C7_round_trip [0, 10] 0 100 ⟨0, 10, 0, 100⟩
    ⟨0, by simp, 10, by simp, by norm_num⟩
    (by norm_num [Scale.build, widen]) (by norm_num) 3

/-- C1: every array the example passes into `dataSets` — the coords and
the values of all three series — is obtained from a fetched column with
its first (header) element removed via `slice(1)` (for the scaled series,
followed by an element-wise `map`); no column reaches `createMain` with
its header element retained. -/
theorem C1_arrays_header_stripped (Config : Type) (h : Heap) (names : Names)
    (r0 r1 r2 : Nat) (rest : List Nat) (cfg : Config)
    (h0 : r0 < h.length) (h1 : r1 < h.length) (h2 : r2 < h.length) :
    ∀ call ∈ (run Config h ⟨names, r0 :: r1 :: r2 :: rest⟩ cfg).2,
      ∀ s ∈ (((run Config h ⟨names, r0 :: r1 :: r2 :: rest⟩ cfg).1).derefChart
          call.params).dataSets,
        headerStripped [h.get r0, h.get r1, h.get r2] s.coords ∧
        headerStripped [h.get r0, h.get r1, h.get r2] s.values := by
  have key := buildParams_eq h names r0 r1 r2 rest h0 h1 h2
  rw [run_eq]
  simp only [key]
  intro call hcall s hs
  simp only [List.mem_singleton] at hcall
  subst hcall
  simp only [Heap.derefChart, Heap.derefSeries, List.map_cons, List.map_nil,
    Heap.get_append_zero, Heap.get_append_add, List.getD_cons_zero, List.getD_cons_succ,
    List.mem_cons, List.not_mem_nil, or_false] at hs
  rcases hs with hs | hs | hs <;> subst hs <;> constructor
  · exact ⟨h.get r0, by simp, Or.inl rfl⟩
  · exact ⟨h.get r1, by simp, Or.inl rfl⟩
  · exact ⟨h.get r0, by simp, Or.inl rfl⟩
  · exact ⟨h.get r2, by simp, Or.inr ⟨100, rfl⟩⟩
  · exact ⟨h.get r0, by simp, Or.inl rfl⟩
  · exact ⟨h.get r2, by simp, Or.inr ⟨1000, rfl⟩⟩

theorem C1_arrays_header_stripped_witness :
    headerStripped [Heap.get [[(1 : ℚ), 2], [3, 4], [5, 6]] 0,
        Heap.get [[(1 : ℚ), 2], [3, 4], [5, 6]] 1,
        Heap.get [[(1 : ℚ), 2], [3, 4], [5, 6]] 2]
      (SeriesSpec.mk "a" [2] [4]).coords ∧
    headerStripped [Heap.get [[(1 : ℚ), 2], [3, 4], [5, 6]] 0,
        Heap.get [[(1 : ℚ), 2], [3, 4], [5, 6]] 1,
        Heap.get [[(1 : ℚ), 2], [3, 4], [5, 6]] 2]
      (SeriesSpec.mk "a" [2] [4]).values :=
  C1_arrays_header_stripped Unit [[(1 : ℚ), 2], [3, 4], [5, 6]] ⟨"a", "b"⟩ 0 1 2 [] ()
    (by decide) (by decide) (by decide)
    ⟨(buildParams [[(1 : ℚ), 2], [3, 4], [5, 6]] ⟨⟨"a", "b"⟩, [0, 1, 2]⟩).2, ()⟩ (by decide)
    ⟨"a", [2], [4]⟩ (by decide)

/-- C2: the ChartSpec handed to `Graphima.createMain` contains exactly
three SeriesSpec entries in order — the first with the unscaled values of
column 1, the second with every value of column 2 multiplied by 100, the
third with every value of column 2 multiplied by 1000 — and `createMain`
is called exactly once, with this spec and `CONFIG`. -/
theorem C2_three_series_single_call (Config : Type) (h : Heap) (names : Names)
    (r0 r1 r2 : Nat) (rest : List Nat) (cfg : Config)
    (h0 : r0 < h.length) (h1 : r1 < h.length) (h2 : r2 < h.length) :
    (run Config h ⟨names, r0 :: r1 :: r2 :: rest⟩ cfg).2 =
      [⟨(buildParams h ⟨names, r0 :: r1 :: r2 :: rest⟩).2, cfg⟩] ∧
    ((run Config h ⟨names, r0 :: r1 :: r2 :: rest⟩ cfg).1).derefChart
        (buildParams h ⟨names, r0 :: r1 :: r2 :: rest⟩).2 =
      ⟨"#chart-2", "New chart", "date", "number",
        [⟨names.y0, (h.get r0).drop 1, (h.get r1).drop 1⟩,
         ⟨names.y1 ++ " x 100", (h.get r0).drop 1,
           ((h.get r2).drop 1).map (fun v => v * 100)⟩,
         ⟨names.y1 ++ " x 1000", (h.get r0).drop 1,
           ((h.get r2).drop 1).map (fun v => v * 1000)⟩]⟩ := by
  have key := buildParams_eq h names r0 r1 r2 rest h0 h1 h2
  refine ⟨rfl, ?_⟩
  rw [run_eq]
  simp only [key]
  simp [Heap.derefChart, Heap.derefSeries, Heap.get_append_zero, Heap.get_append_add]

theorem C2_three_series_single_call_witness :
    (run Unit [[(1 : ℚ), 2], [3, 4], [5, 6]] ⟨⟨"a", "b"⟩, [0, 1, 2]⟩ ()).2 =
      [⟨(buildParams [[(1 : ℚ), 2], [3, 4], [5, 6]] ⟨⟨"a", "b"⟩, [0, 1, 2]⟩).2, ()⟩] ∧
    ((run Unit [[(1 : ℚ), 2], [3, 4], [5, 6]] ⟨⟨"a", "b"⟩, [0, 1, 2]⟩ ()).1).derefChart
        (buildParams [[(1 : ℚ), 2], [3, 4], [5, 6]] ⟨⟨"a", "b"⟩, [0, 1, 2]⟩).2 =
      ⟨"#chart-2", "New chart", "date", "number",
        [⟨"a", (Heap.get [[(1 : ℚ), 2], [3, 4], [5, 6]] 0).drop 1,
           (Heap.get [[(1 : ℚ), 2], [3, 4], [5, 6]] 1).drop 1⟩,
         ⟨"b" ++ " x 100", (Heap.get [[(1 : ℚ), 2], [3, 4], [5, 6]] 0).drop 1,
           ((Heap.get [[(1 : ℚ), 2], [3, 4], [5, 6]] 2).drop 1).map (fun v => v * 100)⟩,
         ⟨"b" ++ " x 1000", (Heap.get [[(1 : ℚ), 2], [3, 4], [5, 6]] 0).drop 1,
           ((Heap.get [[(1 : ℚ), 2], [3, 4], [5, 6]] 2).drop 1).map (fun v => v * 1000)⟩]⟩ :=
  C2_three_series_single_call Unit [[(1 : ℚ), 2], [3, 4], [5, 6]] ⟨"a", "b"⟩ 0 1 2 [] ()
    (by decide) (by decide) (by decide)

/-- C3: column 0 of the fetched data is the shared coordinate axis of all
three series the example builds, and the per-series values come only from
column 1 (first series) and column 2 (second and third series). -/
theorem C3_column0_shared_axis (Config : Type) (h : Heap) (names : Names)
    (r0 r1 r2 : Nat) (rest : List Nat) (cfg : Config)
    (h0 : r0 < h.length) (h1 : r1 < h.length) (h2 : r2 < h.length) :
    ∀ call ∈ (run Config h ⟨names, r0 :: r1 :: r2 :: rest⟩ cfg).2,
      ((((run Config h ⟨names, r0 :: r1 :: r2 :: rest⟩ cfg).1).derefChart
          call.params).dataSets.map SeriesSpec.coords) =
        [(h.get r0).drop 1, (h.get r0).drop 1, (h.get r0).drop 1] ∧
      ((((run Config h ⟨names, r0 :: r1 :: r2 :: rest⟩ cfg).1).derefChart
          call.params).dataSets.map SeriesSpec.values) =
        [(h.get r1).drop 1, ((h.get r2).drop 1).map (fun v => v * 100),
         ((h.get r2).drop 1).map (fun v => v * 1000)] := by
  have key := buildParams_eq h names r0 r1 r2 rest h0 h1 h2
  rw [run_eq]
  simp only [key]
  intro call hcall
  simp only [List.mem_singleton] at hcall
  subst hcall
  simp [Heap.derefChart, Heap.derefSeries, Heap.get_append_zero, Heap.get_append_add]

theorem C3_column0_shared_axis_witness :
    ((((run Unit [[(1 : ℚ), 2], [3, 4], [5, 6]] ⟨⟨"a", "b"⟩, [0, 1, 2]⟩ ()).1).derefChart
        (CreateMainCall.mk
          (buildParams [[(1 : ℚ), 2], [3, 4], [5, 6]] ⟨⟨"a", "b"⟩, [0, 1, 2]⟩).2
          ()).params).dataSets.map SeriesSpec.coords) =
      [(Heap.get [[(1 : ℚ), 2], [3, 4], [5, 6]] 0).drop 1,
       (Heap.get [[(1 : ℚ), 2], [3, 4], [5, 6]] 0).drop 1,
       (Heap.get [[(1 : ℚ), 2], [3, 4], [5, 6]] 0).drop 1] ∧
    ((((run Unit [[(1 : ℚ), 2], [3, 4], [5, 6]] ⟨⟨"a", "b"⟩, [0, 1, 2]⟩ ()).1).derefChart
        (CreateMainCall.mk
          (buildParams [[(1 : ℚ), 2], [3, 4], [5, 6]] ⟨⟨"a", "b"⟩, [0, 1, 2]⟩).2
          ()).params).dataSets.map SeriesSpec.values) =
      [(Heap.get [[(1 : ℚ), 2], [3, 4], [5, 6]] 1).drop 1,
       ((Heap.get [[(1 : ℚ), 2], [3, 4], [5, 6]] 2).drop 1).map (fun v => v * 100),
       ((Heap.get [[(1 : ℚ), 2], [3, 4], [5, 6]] 2).drop 1).map (fun v => v * 1000)] :=
  C3_column0_shared_axis Unit [[(1 : ℚ), 2], [3, 4], [5, 6]] ⟨"a", "b"⟩ 0 1 2 [] ()
    (by decide) (by decide) (by decide)
    ⟨(buildParams [[(1 : ℚ), 2], [3, 4], [5, 6]] ⟨⟨"a", "b"⟩, [0, 1, 2]⟩).2, ()⟩ (by decide)

/-- C4: for every fetched data object whose columns are of equal length,
each of the three SeriesSpec entries the example constructs satisfies
`len(coords) = len(values)`: `slice(1)` and `map` preserve the common
length. -/
theorem C4_equal_lengths (Config : Type) (h : Heap) (names : Names)
    (r0 r1 r2 : Nat) (rest : List Nat) (cfg : Config)
    (h0 : r0 < h.length) (h1 : r1 < h.length) (h2 : r2 < h.length)
    (hlen1 : (h.get r0).length = (h.get r1).length)
    (hlen2 : (h.get r0).length = (h.get r2).length) :
    ∀ call ∈ (run Config h ⟨names, r0 :: r1 :: r2 :: rest⟩ cfg).2,
      ∀ s ∈ (((run Config h ⟨names, r0 :: r1 :: r2 :: rest⟩ cfg).1).derefChart
          call.params).dataSets,
        s.coords.length = s.values.length := by
  have key := buildParams_eq h names r0 r1 r2 rest h0 h1 h2
  rw [run_eq]
  simp only [key]
  intro call hcall s hs
  simp only [List.mem_singleton] at hcall
  subst hcall
  simp only [Heap.derefChart, Heap.derefSeries, List.map_cons, List.map_nil,
    Heap.get_append_zero, Heap.get_append_add, List.getD_cons_zero, List.getD_cons_succ,
    List.mem_cons, List.not_mem_nil, or_false] at hs
  rcases hs with hs | hs | hs <;> subst hs <;>
    simp only [List.length_drop, List.length_map] <;> omega

theorem C4_equal_lengths_witness :
    (SeriesSpec.mk "a" [2] [4]).coords.length = (SeriesSpec.mk "a" [2] [4]).values.length :=
  C4_equal_lengths Unit [[(1 : ℚ), 2], [3, 4], [5, 6]] ⟨"a", "b"⟩ 0 1 2 [] ()
    (by decide) (by decide) (by decide) (by decide) (by decide)
    ⟨(buildParams [[(1 : ℚ), 2], [3, 4], [5, 6]] ⟨⟨"a", "b"⟩, [0, 1, 2]⟩).2, ()⟩ (by decide)
    ⟨"a", [2], [4]⟩ (by decide)

/-- C9: the three series in the constructed `dataSets` carry element-wise
equal coordinate sequences — each an independent copy of column 0 with the
header dropped — yet as three distinct array objects: no SeriesSpec
aliases another's coords array (the three coords references are pairwise
different heap cells with equal contents). -/
theorem C9_coords_fresh_copies (h : Heap) (names : Names) (r0 r1 r2 : Nat)
    (rest : List Nat)
    (h0 : r0 < h.length) (h1 : r1 < h.length) (h2 : r2 < h.length) :
    ∃ s0 s1 s2 : SeriesSpecH,
      (buildParams h ⟨names, r0 :: r1 :: r2 :: rest⟩).2.dataSets = [s0, s1, s2] ∧
      s0.coords ≠ s1.coords ∧ s0.coords ≠ s2.coords ∧ s1.coords ≠ s2.coords ∧
      ((buildParams h ⟨names, r0 :: r1 :: r2 :: rest⟩).1).get s0.coords =
        ((buildParams h ⟨names, r0 :: r1 :: r2 :: rest⟩).1).get s1.coords ∧
      ((buildParams h ⟨names, r0 :: r1 :: r2 :: rest⟩).1).get s1.coords =
        ((buildParams h ⟨names, r0 :: r1 :: r2 :: rest⟩).1).get s2.coords ∧
      ((buildParams h ⟨names, r0 :: r1 :: r2 :: rest⟩).1).get s0.coords =
        (h.get r0).drop 1 := by
  have key := buildParams_eq h names r0 r1 r2 rest h0 h1 h2
  refine ⟨⟨names.y0, h.length, h.length + 1⟩,
          ⟨names.y1 ++ " x 100", h.length + 2, h.length + 4⟩,
          ⟨names.y1 ++ " x 1000", h.length + 5, h.length + 7⟩,
          by rw [key], by simp, by simp, by simp, ?_, ?_, ?_⟩ <;>
    simp only [key] <;>
    simp [Heap.get_append_zero, Heap.get_append_add]

theorem C9_coords_fresh_copies_witness :
    ∃ s0 s1 s2 : SeriesSpecH,
      (buildParams [[(1 : ℚ), 2], [3, 4], [5, 6]] ⟨⟨"a", "b"⟩, [0, 1, 2]⟩).2.dataSets =
        [s0, s1, s2] ∧
      s0.coords ≠ s1.coords ∧ s0.coords ≠ s2.coords ∧ s1.coords ≠ s2.coords ∧
      ((buildParams [[(1 : ℚ), 2], [3, 4], [5, 6]] ⟨⟨"a", "b"⟩, [0, 1, 2]⟩).1).get s0.coords =
        ((buildParams [[(1 : ℚ), 2], [3, 4], [5, 6]] ⟨⟨"a", "b"⟩, [0, 1, 2]⟩).1).get s1.coords ∧
      ((buildParams [[(1 : ℚ), 2], [3, 4], [5, 6]] ⟨⟨"a", "b"⟩, [0, 1, 2]⟩).1).get s1.coords =
        ((buildParams [[(1 : ℚ), 2], [3, 4], [5, 6]] ⟨⟨"a", "b"⟩, [0, 1, 2]⟩).1).get s2.coords ∧
      ((buildParams [[(1 : ℚ), 2], [3, 4], [5, 6]] ⟨⟨"a", "b"⟩, [0, 1, 2]⟩).1).get s0.coords =
        (Heap.get [[(1 : ℚ), 2], [3, 4], [5, 6]] 0).drop 1 :=
  C9_coords_fresh_copies [[(1 : ℚ), 2], [3, 4], [5, 6]] ⟨"a", "b"⟩ 0 1 2 []
    (by decide) (by decide) (by decide)

/-- C10: the params object passed to `createMain` is a deterministic
function of the decoded data: for any two runs in which the decoded data
are structurally equal — same names, element-wise equal columns — the
constructed params (selector, contentName, coordType, valueType, and all
series names, coords and values) are structurally equal, with exact
arithmetic for the ×100 and ×1000 scalings. -/
theorem C10_deterministic (Config Config' : Type) (h h' : Heap)
    (names names' : Names) (r0 r1 r2 r0' r1' r2' : Nat) (rest rest' : List Nat)
    (cfg : Config) (cfg' : Config')
    (h0 : r0 < h.length) (h1 : r1 < h.length) (h2 : r2 < h.length)
    (h0' : r0' < h'.length) (h1' : r1' < h'.length) (h2' : r2' < h'.length)
    (hn : names = names')
    (e0 : h.get r0 = h'.get r0') (e1 : h.get r1 = h'.get r1')
    (e2 : h.get r2 = h'.get r2') :
    ((run Config h ⟨names, r0 :: r1 :: r2 :: rest⟩ cfg).1).derefChart
        (buildParams h ⟨names, r0 :: r1 :: r2 :: rest⟩).2 =
      ((run Config' h' ⟨names', r0' :: r1' :: r2' :: rest'⟩ cfg').1).derefChart
        (buildParams h' ⟨names', r0' :: r1' :: r2' :: rest'⟩).2 := by
  have key := buildParams_eq h names r0 r1 r2 rest h0 h1 h2
  have key' := buildParams_eq h' names' r0' r1' r2' rest' h0' h1' h2'
  rw [run_eq, run_eq]
  simp only [key, key']
  subst hn
  simp [Heap.derefChart, Heap.derefSeries, Heap.get_append_zero, Heap.get_append_add,
    e0, e1, e2]

theorem C10_deterministic_witness :
    ((run Unit [[(1 : ℚ), 2], [3, 4], [5, 6]] ⟨⟨"a", "b"⟩, [0, 1, 2]⟩ ()).1).derefChart
        (buildParams [[(1 : ℚ), 2], [3, 4], [5, 6]] ⟨⟨"a", "b"⟩, [0, 1, 2]⟩).2 =
      ((run Bool [[(5 : ℚ), 6], [1, 2], [3, 4]] ⟨⟨"a", "b"⟩, [1, 2, 0]⟩ true).1).derefChart
        (buildParams [[(5 : ℚ), 6], [1, 2], [3, 4]] ⟨⟨"a", "b"⟩, [1, 2, 0]⟩).2 :=
  C10_deterministic Unit Bool [[(1 : ℚ), 2], [3, 4], [5, 6]] [[(5 : ℚ), 6], [1, 2], [3, 4]]
    ⟨"a", "b"⟩ ⟨"a", "b"⟩ 0 1 2 1 2 0 [] [] () true
    (by decide) (by decide) (by decide) (by decide) (by decide) (by decide)
    rfl (by decide) (by decide) (by decide)

end Graphima

